import Mathlib

/-!
Verification of the hybrid processing router of the Cartesia SSM PoC
(`hybrid_router.py`), shallowly embedded in Lean 4.

Modelling conventions:
* Python enums become Lean inductives with a `value` map to their string form.
* Python dicts become structures with `Option` fields (`none` = key absent);
  `dict.get(key, default)` becomes `Option.getD`.
* Wall-clock readings (`time.time()` differences) are passed in as explicit
  parameters (`elapsed`, `now`); numeric telemetry is modelled over `ℚ`.
* The server-side telemetry probes (`get_device_resource_state`,
  `estimate_network_quality`) are I/O; their results are supplied through a
  `ServerEnv` record, so `select_processing_location` becomes a pure function
  of that environment plus its Python arguments.
* Python `re.search` on the pattern table is modelled by a small matcher over
  `List Char` supporting exactly the constructs the table uses: literal runs,
  the start anchor `^`, the wildcard run `.*` (any characters except newline)
  and the word boundary `\b`; top-level alternation `a|b` and distributed
  groups `(x|y)` become lists of alternatives.
-/

namespace HybridRouter

/-- Enum `ProcessingLocation` of `hybrid_router.py`. -/
inductive ProcessingLocation where
  | LOCAL
  | SERVER
  | HYBRID
  | AUTOMATIC
deriving DecidableEq, Fintype

/-- The `.value` string of each `ProcessingLocation` member. -/
def ProcessingLocation.value : ProcessingLocation → String
  | .LOCAL => "local"
  | .SERVER => "server"
  | .HYBRID => "hybrid"
  | .AUTOMATIC => "automatic"

/-- Python `ProcessingLocation(s)`: enum lookup by value, `ValueError`
(modelled as `none`) when the string is not a member value. -/
def ProcessingLocation.fromString (s : String) : Option ProcessingLocation :=
  if s = "local" then some .LOCAL
  else if s = "server" then some .SERVER
  else if s = "hybrid" then some .HYBRID
  else if s = "automatic" then some .AUTOMATIC
  else none

/-- Enum `CommandComplexity`. -/
inductive CommandComplexity where
  | SIMPLE
  | MODERATE
  | COMPLEX
  | UNKNOWN
deriving DecidableEq, Fintype

/-- The `.value` string of each `CommandComplexity` member. -/
def CommandComplexity.value : CommandComplexity → String
  | .SIMPLE => "simple"
  | .MODERATE => "moderate"
  | .COMPLEX => "complex"
  | .UNKNOWN => "unknown"

/-- Enum `NetworkCondition`. -/
inductive NetworkCondition where
  | EXCELLENT
  | GOOD
  | FAIR
  | POOR
  | OFFLINE
  | UNKNOWN
deriving DecidableEq, Fintype

/-- The `.value` string of each `NetworkCondition` member. -/
def NetworkCondition.value : NetworkCondition → String
  | .EXCELLENT => "excellent"
  | .GOOD => "good"
  | .FAIR => "fair"
  | .POOR => "poor"
  | .OFFLINE => "offline"
  | .UNKNOWN => "unknown"

/-- Enum `DeviceResourceState`. -/
inductive DeviceResourceState where
  | OPTIMAL
  | ADEQUATE
  | CONSTRAINED
  | CRITICAL
  | UNKNOWN
deriving DecidableEq, Fintype

/-- The `.value` string of each `DeviceResourceState` member. -/
def DeviceResourceState.value : DeviceResourceState → String
  | .OPTIMAL => "optimal"
  | .ADEQUATE => "adequate"
  | .CONSTRAINED => "constrained"
  | .CRITICAL => "critical"
  | .UNKNOWN => "unknown"

/-! ### Regex fragment matcher

The pattern table of `hybrid_router.py` uses only literals, `^`, `.*`, `\b`
and alternation.  A token is a literal character run, a `.*` wildcard run, or
a word boundary. -/

/-- One token of a regex alternative. -/
inductive RTok where
  | lit (l : List Char)
  | dotstar
  | wb
deriving DecidableEq

/-- Word characters, as in Python `\w` / `\b` (ASCII inputs). -/
def isWordChar (c : Char) : Bool := c.isAlphanum || c = '_'

/-- Whether a `\b` word boundary lies between the previously consumed
character (`none` at the start of the string) and the rest of the input. -/
def boundaryAt (prev : Option Char) (s : List Char) : Bool :=
  (match prev with
   | none => false
   | some c => isWordChar c)
  != (match s with
      | [] => false
      | c :: _ => isWordChar c)

/-- Does `l` occur literally at the very start of `s`? -/
def litPrefix : List Char → List Char → Bool
  | [], _ => true
  | _ :: _, [] => false
  | c :: cs, d :: s2 => c = d && litPrefix cs s2

/-- The character just before the rest of the input after consuming the
literal `l`, given the character `prev` before `l`. -/
def lastOr (prev : Option Char) (l : List Char) : Option Char :=
  match l.getLast? with
  | some c => some c
  | none => prev

/-- Does `p` hold of some suffix of `s` reachable by skipping characters
other than a newline (the span `.*` may consume)?  `prev` tracks the
character just before the current suffix. -/
def anySkipSuffix (p : Option Char → List Char → Bool) :
    Option Char → List Char → Bool
  | prev, s =>
      p prev s ||
        (match s with
         | [] => false
         | c :: s2 => if c = '\n' then false else anySkipSuffix p (some c) s2)

/-- Match a token list against a prefix of `s`, `prev` being the character
just before `s` in the full input.  `.*` matches any run of characters other
than a newline, as Python `.` does by default. -/
def matchToks : Option Char → List RTok → List Char → Bool
  | _, [], _ => true
  | prev, .lit l :: rest, s =>
      litPrefix l s && matchToks (lastOr prev l) rest (s.drop l.length)
  | prev, .dotstar :: rest, s =>
      anySkipSuffix (fun prev2 s2 => matchToks prev2 rest s2) prev s
  | prev, .wb :: rest, s => boundaryAt prev s && matchToks prev rest s

/-- `re.search` for a single alternative body: try to match at every start
position of `s`. -/
def searchToks (prev : Option Char) (toks : List RTok) (s : List Char) : Bool :=
  matchToks prev toks s ||
    (match s with
     | [] => false
     | c :: s2 => searchToks (some c) toks s2)

/-- One alternative of a pattern: an optional `^` anchor and a token body. -/
structure RAlt where
  anchored : Bool
  toks : List RTok
deriving DecidableEq

/-- `re.search` semantics for one alternative (without `re.MULTILINE`, `^`
only matches at the very start of the input). -/
def altSearch (a : RAlt) (s : List Char) : Bool :=
  if a.anchored then matchToks none a.toks s else searchToks none a.toks s

/-- `re.search` for a whole pattern: some alternative matches somewhere. -/
def regexSearch (alts : List RAlt) (s : List Char) : Bool :=
  alts.any (fun a => altSearch a s)

/-- Unanchored literal alternative. -/
def rlit (s : String) : RAlt := ⟨false, [RTok.lit s.toList]⟩

/-- Anchored literal alternative (`^...`). -/
def ranch (s : String) : RAlt := ⟨true, [RTok.lit s.toList]⟩

/-- Anchored literal followed by a word boundary (`^...\b`). -/
def ranchWb (s : String) : RAlt := ⟨true, [RTok.lit s.toList, RTok.wb]⟩

/-- Unanchored `a.*b` alternative. -/
def rstar (a b : String) : RAlt := ⟨false, [RTok.lit a.toList, RTok.dotstar, RTok.lit b.toList]⟩

/-- The `COMMAND_COMPLEXITY_PATTERNS` table, alternation written out as
lists of alternatives and `(x|y)` groups distributed over their prefix.
The Python dict has no entry for `UNKNOWN`; that case is never looked up. -/
def COMMAND_COMPLEXITY_PATTERNS : CommandComplexity → List (List RAlt)
  | .SIMPLE =>
      [[ranch "what time is it"],
       [ranch "how are you"],
       [ranch "hello", ranchWb "hi"],
       [ranch "thank you"],
       [ranch "stop", ranch "cancel", ranch "exit"],
       [ranch "yes", ranchWb "no"],
       [ranch "turn on", ranch "turn off"],
       [ranch "play", ranch "pause", ranch "next", ranch "previous"],
       [ranch "volume up", ranch "volume down"]]
  | .MODERATE =>
      [[rstar "what" "weather"],
       [rstar "what" "meeting"],
       [rstar "how" "get to"],
       [rstar "find" "near me"],
       [rstar "set" "reminder", rstar "set" "alarm"],
       [rstar "send" "message", rstar "send" "email"],
       [rlit "search for"],
       [rlit "calculate", rlit "convert"],
       [rlit "who is", rlit "what is", rlit "how do", rlit "how does", rlit "how did"]]
  | .COMPLEX =>
      [[rlit "compare", rlit "difference between"],
       [rlit "explain", rlit "elaborate on"],
       [rlit "analyze", rlit "predict", rlit "forecast"],
       [rlit "summarize", rlit "synopsis", rlit "summary of"],
       [rlit "relationship between"],
       [rlit "what would happen if"],
       [rlit "history of", rlit "evolution of"],
       [rlit "that", rlit "this", rlit "it", rlit "one", rlit "them", rlit "those"],
       [rlit "like I mentioned", rlit "as I said", rlit "earlier", rlit "before"]]
  | .UNKNOWN => []

/-- Whether any pattern of the group for `c` matches the (lowercased)
command text. -/
def groupMatches (c : CommandComplexity) (command_text : String) : Bool :=
  (COMMAND_COMPLEXITY_PATTERNS c).any
    (fun p => regexSearch p (command_text.toList.map Char.toLower))

/-- The ordered group scan of `estimate_command_complexity`: first group with
a matching pattern wins; `MODERATE` when no group matches. -/
def checkGroups : List CommandComplexity → List Char → CommandComplexity
  | [], _ => .MODERATE
  | c :: rest, cs =>
      if (COMMAND_COMPLEXITY_PATTERNS c).any (fun p => regexSearch p cs) then c
      else checkGroups rest cs

/-- `estimate_command_complexity`: lowercase the text, scan the groups in the
order `COMPLEX`, `MODERATE`, `SIMPLE`, default to `MODERATE`. -/
def estimate_command_complexity (command_text : String) : CommandComplexity :=
  checkGroups [.COMPLEX, .MODERATE, .SIMPLE] (command_text.toList.map Char.toLower)

/-! ### Telemetry classifiers (server path) -/

/-- The dict produced by `estimate_network_quality`, reduced to the only key
`classify_network_condition` reads: `quality` (`none` = key absent). -/
structure NetworkInfo where
  quality : Option String

/-- `classify_network_condition`: map the `quality` label (default
`"unknown"` when absent) to the enum. -/
def classify_network_condition (network_info : NetworkInfo) : NetworkCondition :=
  match network_info.quality.getD "unknown" with
  | "excellent" => .EXCELLENT
  | "good" => .GOOD
  | "fair" => .FAIR
  | "poor" => .POOR
  | "offline" => .OFFLINE
  | _ => .UNKNOWN

/-- The dict produced by `get_device_resource_state`, reduced to the keys
`classify_device_resource_state` reads.  `hasError` models the presence of
an `"error"` key; each metric field is `none` when the key is absent (the
classifier then applies its default); `battery_percent` distinguishes an
absent key (outer `none`, default `50`) from a key present with value `None`
(inner `none`). -/
structure ResourceReading where
  hasError : Bool
  cpu_percent : Option ℚ
  memory_percent : Option ℚ
  memory_available_mb : Option ℚ
  battery_percent : Option (Option ℚ)

/-- Python `x is not None and x < t` for an optional number. -/
def someLt (x : Option ℚ) (t : ℚ) : Bool :=
  match x with
  | some b => decide (b < t)
  | none => false

/-- The critical-branch condition of `classify_device_resource_state`:
`(battery_percent is not None and battery_percent < 15) or
memory_available_mb < 500`, after the `.get` defaults. -/
def criticalCond (r : ResourceReading) : Bool :=
  someLt (r.battery_percent.getD (some 50)) 15 ||
    decide (r.memory_available_mb.getD 2000 < 500)

/-- The constrained-branch condition: `cpu_percent > 80 or memory_percent >
80 or memory_available_mb < 1000 or (battery is not None and battery < 30)`. -/
def constrainedCond (r : ResourceReading) : Bool :=
  decide (r.cpu_percent.getD 50 > 80) || decide (r.memory_percent.getD 50 > 80) ||
    decide (r.memory_available_mb.getD 2000 < 1000) ||
    someLt (r.battery_percent.getD (some 50)) 30

/-- The optimal-branch condition: `cpu_percent < 30 and memory_percent < 50
and memory_available_mb > 4000 and (battery is None or battery > 70)`. -/
def optimalCond (r : ResourceReading) : Bool :=
  decide (r.cpu_percent.getD 50 < 30) && decide (r.memory_percent.getD 50 < 50) &&
    decide (r.memory_available_mb.getD 2000 > 4000) &&
    (match r.battery_percent.getD (some 50) with
     | none => true
     | some b => decide (b > 70))

/-- `classify_device_resource_state`: `UNKNOWN` on an error marker, then the
critical, constrained and optimal branch conditions in order, else
`ADEQUATE`. -/
def classify_device_resource_state (resource_state : ResourceReading) :
    DeviceResourceState :=
  if resource_state.hasError then .UNKNOWN
  else if criticalCond resource_state then .CRITICAL
  else if constrainedCond resource_state then .CONSTRAINED
  else if optimalCond resource_state then .OPTIMAL
  else .ADEQUATE

/-! ### Telemetry classifiers (client path) -/

/-- The `network` sub-dict of client metrics: `empty` models Python dict
falsiness (`not client_network_metrics`); `effectiveType` is the only key
read. -/
structure ClientNetInfo where
  empty : Bool
  effectiveType : Option String

/-- `classify_network_condition_from_client`. -/
def classify_network_condition_from_client (client_network_metrics : Option ClientNetInfo) :
    NetworkCondition :=
  match client_network_metrics with
  | none => .UNKNOWN
  | some nm =>
      if nm.empty || nm.effectiveType == some "unknown" then .UNKNOWN
      else
        match nm.effectiveType with
        | some "offline" => .OFFLINE
        | some "slow-2g" => .POOR
        | some "2g" => .POOR
        | some "3g" => .FAIR
        | some "4g" => .GOOD
        | _ => .GOOD

/-- The client metrics dict: `empty` models dict falsiness; `network` is the
`network` sub-dict; `memoryGB` is `client_metrics.get('memory', {}).get('memoryGB')`
and `batteryLevel` is `client_metrics.get('battery', {}).get('level')`, both
`none` when any step of the lookup misses. -/
structure ClientMetrics where
  empty : Bool
  network : Option ClientNetInfo
  memoryGB : Option ℚ
  batteryLevel : Option ℚ

/-- Python truthiness of the `client_metrics` argument. -/
def truthyCM : Option ClientMetrics → Bool
  | none => false
  | some cm => !cm.empty

/-- `classify_device_resource_state_from_client`. -/
def classify_device_resource_state_from_client (client_metrics : Option ClientMetrics) :
    DeviceResourceState :=
  if !truthyCM client_metrics then .UNKNOWN
  else
    match client_metrics with
    | none => .UNKNOWN
    | some cm =>
        if someLt cm.batteryLevel 15 || someLt cm.memoryGB (1 / 2) then .CRITICAL
        else if someLt cm.batteryLevel 30 || someLt cm.memoryGB 1 then .CONSTRAINED
        else if (match cm.batteryLevel with
                 | none => true
                 | some b => decide (b > 70)) &&
                (match cm.memoryGB with
                 | none => true
                 | some m => decide (m ≥ 4)) then .OPTIMAL
        else .ADEQUATE

/-! ### The routing policy -/

/-- One entry of the `transitions` list. -/
structure TransitionEvent where
  timestamp : ℚ
  from_location : String
  to_location : String
deriving DecidableEq

/-- The conversation context dict, reduced to the keys
`transition_processing_context` touches: `history` (opaque payload) and the
optional `transitions` list (`none` = key absent). -/
structure ConversationContext where
  history : List String
  transitions : Option (List TransitionEvent)
deriving DecidableEq


/-- The server-side telemetry environment: what `get_device_resource_state()`
and `estimate_network_quality()` return during the call. -/
structure ServerEnv where
  resource_state : ResourceReading
  network_info : NetworkInfo

/-- The telemetry-source selection of `select_processing_location`: classify
from client metrics when the `client_metrics` argument is truthy, otherwise
from the server readings.  Returns (network condition, device state). -/
def routedSignals (env : ServerEnv) (client_metrics : Option ClientMetrics) :
    NetworkCondition × DeviceResourceState :=
  match client_metrics with
  | some cm =>
      if cm.empty then
        (classify_network_condition env.network_info,
         classify_device_resource_state env.resource_state)
      else
        (classify_network_condition_from_client cm.network,
         classify_device_resource_state_from_client (some cm))
  | none =>
      (classify_network_condition env.network_info,
       classify_device_resource_state env.resource_state)

/-- Steps 1-5 and the default of `select_processing_location` (the ordered
rule chain after classification): decision venue and reason string. -/
def routePolicy (command_complexity : CommandComplexity)
    (network_condition : NetworkCondition) (device_state : DeviceResourceState) :
    ProcessingLocation × String :=
  if network_condition = .OFFLINE then
    (.LOCAL, "No network connectivity available")
  else if device_state = .CRITICAL ∧
      network_condition ∈ [NetworkCondition.EXCELLENT, NetworkCondition.GOOD] then
    (.SERVER, "Device resources critically low, good network available")
  else if command_complexity = .COMPLEX ∧
      network_condition ∈ [NetworkCondition.EXCELLENT, NetworkCondition.GOOD,
        NetworkCondition.FAIR] then
    (.SERVER, "Complex command with adequate network")
  else if command_complexity = .SIMPLE ∧
      device_state ∈ [DeviceResourceState.OPTIMAL, DeviceResourceState.ADEQUATE] then
    (.LOCAL, "Simple command with adequate device resources")
  else if network_condition ∈ [NetworkCondition.EXCELLENT, NetworkCondition.GOOD] then
    (.SERVER, "Good network conditions favor server processing")
  else
    (.LOCAL, "Default fallback to local for reliability")

/-- The decision metadata dict.  The forced branch builds only `decision`,
`reason` and `decision_time_ms`, so the classification fields are optional;
`decision_time_ms` is the wall-clock figure for the automatic branches and
the literal `0` for the forced branch. -/
structure DecisionMetadata where
  decision : String
  reason : String
  command_complexity : Option String
  network_condition : Option String
  device_state : Option String
  decision_time_ms : ℚ
deriving DecidableEq

/-- The automatic part of `select_processing_location` (everything after the
forced-location check): pick the telemetry source, classify, estimate
complexity and run the rule chain.  `elapsed` is the wall-clock time the
call measured for `decision_time_ms`. -/
def selectAuto (env : ServerEnv) (elapsed : ℚ) (command_text : String)
    (client_metrics : Option ClientMetrics) : ProcessingLocation × DecisionMetadata :=
  let signals := routedSignals env client_metrics
  let network_condition := signals.1
  let device_state := signals.2
  let command_complexity := estimate_command_complexity command_text
  let routed := routePolicy command_complexity network_condition device_state
  (routed.1,
   { decision := routed.1.value
     reason := routed.2
     command_complexity := some command_complexity.value
     network_condition := some network_condition.value
     device_state := some device_state.value
     decision_time_ms := elapsed })

/-- `select_processing_location`.  A forced location is honoured when it
parses as an enum value (Python `ProcessingLocation(forced_location)`), with
`decision_time_ms = 0`; an unparsable forced string falls through to the
automatic selection, as does an absent one.  (`context` is only logged by
the source, never used in the decision.) -/
def select_processing_location (env : ServerEnv) (elapsed : ℚ)
    (command_text : String) (context : Option ConversationContext)
    (forced_location : Option String) (client_metrics : Option ClientMetrics) :
    ProcessingLocation × DecisionMetadata :=
  match forced_location with
  | some f =>
      match ProcessingLocation.fromString f with
      | some forced_loc =>
          (forced_loc,
           { decision := forced_loc.value
             reason := "Forced by user setting"
             command_complexity := none
             network_condition := none
             device_state := none
             decision_time_ms := 0 })
      | none => selectAuto env elapsed command_text client_metrics
  | none => selectAuto env elapsed command_text client_metrics

/-! ### Context transition tracker -/

/-- A venue argument to `transition_processing_context`: either an enum
member or a raw string (the source stores `x.value` for an enum member and
the string itself otherwise). -/
inductive LocationArg where
  | loc (l : ProcessingLocation)
  | str (s : String)

/-- The string the tracker stores for a venue argument. -/
def LocationArg.normalize : LocationArg → String
  | .loc l => l.value
  | .str s => s

/-- The transition metadata dict. -/
structure TransitionMetadata where
  transition_time_ms : ℚ
deriving DecidableEq

/-- `transition_processing_context`: initialize a fresh `{"history": []}`
context when the argument is falsy (`none` covers Python `None` and an
empty dict), default the `transitions` list to `[]` when the key is absent,
and append one `{timestamp, from_location, to_location}` event.  `now` is
the `time.time()` reading, `elapsed` the measured append time. -/
def transition_processing_context (now elapsed : ℚ)
    (from_location to_location : LocationArg)
    (conversation_context : Option ConversationContext) :
    ConversationContext × TransitionMetadata :=
  let ctx := conversation_context.getD ⟨[], none⟩
  let transition_event : TransitionEvent :=
    ⟨now, from_location.normalize, to_location.normalize⟩
  let ts := ctx.transitions.getD []
  ({ ctx with transitions := some (ts ++ [transition_event]) }, ⟨elapsed⟩)

/-! ### Concrete sample inputs used by the witnesses -/

/-- A healthy reading: low CPU, plenty of memory, full battery (`OPTIMAL`). -/
def readingOptimal : ResourceReading := ⟨false, some 10, some 20, some 8000, some (some 95)⟩

/-- A reading with battery at 5% (`CRITICAL`). -/
def readingCritical : ResourceReading := ⟨false, some 10, some 20, some 8000, some (some 5)⟩

/-- The spec's worked example: CPU 90%, 100 MB available, battery 10%. -/
def readingExample : ResourceReading := ⟨false, some 90, none, some 100, some (some 10)⟩

/-- A reading carrying the adapter's error marker. -/
def readingErrored : ResourceReading := ⟨true, none, none, none, none⟩

/-- An error-free reading with every metric key absent. -/
def readingDefaults : ResourceReading := ⟨false, none, none, none, none⟩

/-- Offline network with an optimal device. -/
def envOfflineOptimal : ServerEnv := ⟨readingOptimal, ⟨some "offline"⟩⟩

/-- Good network with a critical device. -/
def envGoodCritical : ServerEnv := ⟨readingCritical, ⟨some "good"⟩⟩

/-- Errored telemetry with a good network label. -/
def envErrored : ServerEnv := ⟨readingErrored, ⟨some "good"⟩⟩

/-- A client-metrics payload: 4g network, 8 GB memory, battery 90%. -/
def sampleClientMetrics : ClientMetrics := ⟨false, some ⟨false, some "4g"⟩, some 8, some 90⟩

/-! ### Helper lemmas -/

/-- Every branch of the automatic rule chain decides `LOCAL` or `SERVER`. -/
theorem routePolicy_local_or_server (c : CommandComplexity) (n : NetworkCondition)
    (d : DeviceResourceState) :
    (routePolicy c n d).1 = .LOCAL ∨ (routePolicy c n d).1 = .SERVER := by
  revert c n d
  decide

/-- Step 1 of the rule chain: an offline network decides `LOCAL` outright. -/
theorem routePolicy_offline (c : CommandComplexity) (d : DeviceResourceState) :
    routePolicy c .OFFLINE d = (.LOCAL, "No network connectivity available") := by
  revert c d
  decide

/-- Step 2 on an excellent network: a critical device decides `SERVER`. -/
theorem routePolicy_critical_excellent (c : CommandComplexity) :
    routePolicy c .EXCELLENT .CRITICAL =
      (.SERVER, "Device resources critically low, good network available") := by
  revert c
  decide

/-- Step 2 on a good network: a critical device decides `SERVER`. -/
theorem routePolicy_critical_good (c : CommandComplexity) :
    routePolicy c .GOOD .CRITICAL =
      (.SERVER, "Device resources critically low, good network available") := by
  revert c
  decide

/-- The automatic part of the selection always decides `LOCAL` or `SERVER`. -/
theorem selectAuto_local_or_server (env : ServerEnv) (elapsed : ℚ) (command_text : String)
    (client_metrics : Option ClientMetrics) :
    (selectAuto env elapsed command_text client_metrics).1 = .LOCAL ∨
    (selectAuto env elapsed command_text client_metrics).1 = .SERVER := by
  have h := routePolicy_local_or_server (estimate_command_complexity command_text)
    (routedSignals env client_metrics).1 (routedSignals env client_metrics).2
  simpa [selectAuto] using h

/-- Without a parsable forced location, the selection is the automatic one. -/
theorem select_eq_auto (env : ServerEnv) (elapsed : ℚ) (command_text : String)
    (context : Option ConversationContext) (forced_location : Option String)
    (client_metrics : Option ClientMetrics)
    (h : forced_location.bind ProcessingLocation.fromString = none) :
    select_processing_location env elapsed command_text context forced_location client_metrics =
      selectAuto env elapsed command_text client_metrics := by
  cases forced_location with
  | none => rfl
  | some f =>
      have h2 : ProcessingLocation.fromString f = none := h
      simp only [select_processing_location, h2]

/-- Enum lookup inversion: a successful parse pins the string to the member's
value. -/
theorem fromString_value (s : String) (loc : ProcessingLocation)
    (h : ProcessingLocation.fromString s = some loc) : s = loc.value := by
  unfold ProcessingLocation.fromString at h
  split_ifs at h with h1 h2 h3 h4
  · injection h with h5; subst h5; exact h1
  · injection h with h5; subst h5; exact h2
  · injection h with h5; subst h5; exact h3
  · injection h with h5; subst h5; exact h4

/-! ### The claims -/

/-- Claim C1, counterexample: forcing the location string "automatic" makes
`select_processing_location` return the `AUTOMATIC` sentinel as its final
decision, so the claim that no `forced_location` value can produce
`AUTOMATIC` is false on the code. -/
theorem C1_counterexample :
    (select_processing_location envErrored 1 "hello" none (some "automatic") none).1 =
      ProcessingLocation.AUTOMATIC := rfl

/-- Claim C1, amended: the returned venue is always a defined member of the
venue enumeration (immediate from the return type), and the `AUTOMATIC`
sentinel is returned as the final decision only when the caller passes
`forced_location = "automatic"`; with any other forced string, or none, the
result is never `AUTOMATIC`. -/
theorem C1_theorem (env : ServerEnv) (elapsed : ℚ) (command_text : String)
    (context : Option ConversationContext) (forced_location : Option String)
    (client_metrics : Option ClientMetrics)
    (h : (select_processing_location env elapsed command_text context forced_location
            client_metrics).1 = ProcessingLocation.AUTOMATIC) :
    forced_location = some "automatic" := by
  cases hf : forced_location with
  | none =>
      subst hf
      rcases selectAuto_local_or_server env elapsed command_text client_metrics with h2 | h2 <;>
        · have he : select_processing_location env elapsed command_text context none
              client_metrics = selectAuto env elapsed command_text client_metrics := rfl
          rw [he] at h
          rw [h] at h2
          exact absurd h2 (by decide)
  | some f =>
      subst hf
      cases hp : ProcessingLocation.fromString f with
      | none =>
          have he := select_eq_auto env elapsed command_text context (some f) client_metrics hp
          rw [he] at h
          rcases selectAuto_local_or_server env elapsed command_text client_metrics with h2 | h2 <;>
            · rw [h] at h2
              exact absurd h2 (by decide)
      | some loc =>
          have he : (select_processing_location env elapsed command_text context (some f)
              client_metrics).1 = loc := by
            simp only [select_processing_location, hp]
          rw [he] at h
          subst h
          rw [fromString_value f _ hp]
          rfl

/-- Claim C1, witness for the amended theorem at a concrete input. -/
theorem C1_witness : (some "automatic" : Option String) = some "automatic" :=
  C1_theorem envErrored 1 "hello" none (some "automatic") none rfl

/-- Claim C2 (confirmed): whenever the forced location string parses as a
venue, that venue is returned with reason "Forced by user setting",
`decision_time_ms` exactly `0` and no classification fields — the result
does not depend on the telemetry environment, the elapsed time or the
client metrics, which do not occur on the right-hand side. -/
theorem C2_theorem (env : ServerEnv) (elapsed : ℚ) (command_text : String)
    (context : Option ConversationContext) (f : String)
    (client_metrics : Option ClientMetrics) (loc : ProcessingLocation)
    (h : ProcessingLocation.fromString f = some loc) :
    select_processing_location env elapsed command_text context (some f) client_metrics =
      (loc,
       { decision := loc.value
         reason := "Forced by user setting"
         command_complexity := none
         network_condition := none
         device_state := none
         decision_time_ms := 0 }) := by
  simp only [select_processing_location, h]

/-- Claim C2, witness: forcing "local" yields `LOCAL` with zero latency even
with a critical-device environment and client metrics supplied. -/
theorem C2_witness :
    select_processing_location envGoodCritical 7 "explain this" none (some "local")
        (some sampleClientMetrics) =
      (ProcessingLocation.LOCAL,
       { decision := "local"
         reason := "Forced by user setting"
         command_complexity := none
         network_condition := none
         device_state := none
         decision_time_ms := 0 }) :=
  C2_theorem envGoodCritical 7 "explain this" none "local" (some sampleClientMetrics)
    ProcessingLocation.LOCAL rfl

/-- Claim C3 (confirmed): an unparsable forced location string is silently
ignored — the call returns exactly what the same call without a forced
location returns (and, the embedding being total, never raises). -/
theorem C3_theorem (env : ServerEnv) (elapsed : ℚ) (command_text : String)
    (context : Option ConversationContext) (f : String)
    (client_metrics : Option ClientMetrics)
    (h : ProcessingLocation.fromString f = none) :
    select_processing_location env elapsed command_text context (some f) client_metrics =
      select_processing_location env elapsed command_text context none client_metrics := by
  simp only [select_processing_location, h]

/-- Claim C3, witness at the unrecognized string "bogus". -/
theorem C3_witness :
    select_processing_location envErrored 2 "hello" none (some "bogus") none =
      select_processing_location envErrored 2 "hello" none none none :=
  C3_theorem envErrored 2 "hello" none "bogus" none rfl

/-- Claim C4 (confirmed): in any non-forced call whose classified network
condition is `OFFLINE`, the decision is `LOCAL` with the no-connectivity
reason, for every command text (hence every complexity) and every device
state. -/
theorem C4_theorem (env : ServerEnv) (elapsed : ℚ) (command_text : String)
    (context : Option ConversationContext) (forced_location : Option String)
    (client_metrics : Option ClientMetrics)
    (hf : forced_location.bind ProcessingLocation.fromString = none)
    (hn : (routedSignals env client_metrics).1 = NetworkCondition.OFFLINE) :
    (select_processing_location env elapsed command_text context forced_location
        client_metrics).1 = ProcessingLocation.LOCAL ∧
    (select_processing_location env elapsed command_text context forced_location
        client_metrics).2.reason = "No network connectivity available" := by
  rw [select_eq_auto env elapsed command_text context forced_location client_metrics hf]
  constructor <;> simp [selectAuto, hn, routePolicy_offline]

/-- Claim C4, witness: offline network, optimal device, complex command —
the offline override still decides `LOCAL`. -/
theorem C4_witness :
    (routedSignals envOfflineOptimal none).2 = DeviceResourceState.OPTIMAL ∧
    estimate_command_complexity "explain this" = CommandComplexity.COMPLEX ∧
    (select_processing_location envOfflineOptimal 3 "explain this" none none none).1 =
      ProcessingLocation.LOCAL ∧
    (select_processing_location envOfflineOptimal 3 "explain this" none none none).2.reason =
      "No network connectivity available" :=
  ⟨by decide, by decide,
   C4_theorem envOfflineOptimal 3 "explain this" none none none rfl (by decide)⟩

/-- Claim C5 (confirmed): in any non-forced call with a `CRITICAL` device
state and an `EXCELLENT` or `GOOD` network, the decision is `SERVER`, for
every command text — the resource-pressure escape fires before the
complexity rule. -/
theorem C5_theorem (env : ServerEnv) (elapsed : ℚ) (command_text : String)
    (context : Option ConversationContext) (forced_location : Option String)
    (client_metrics : Option ClientMetrics)
    (hf : forced_location.bind ProcessingLocation.fromString = none)
    (hd : (routedSignals env client_metrics).2 = DeviceResourceState.CRITICAL)
    (hn : (routedSignals env client_metrics).1 = NetworkCondition.EXCELLENT ∨
          (routedSignals env client_metrics).1 = NetworkCondition.GOOD) :
    (select_processing_location env elapsed command_text context forced_location
        client_metrics).1 = ProcessingLocation.SERVER := by
  rw [select_eq_auto env elapsed command_text context forced_location client_metrics hf]
  rcases hn with hn | hn <;>
    simp [selectAuto, hd, hn, routePolicy_critical_excellent, routePolicy_critical_good]

/-- Claim C5, witness: good network, critical battery, simple command — the
escape still decides `SERVER`. -/
theorem C5_witness :
    estimate_command_complexity "hello" = CommandComplexity.SIMPLE ∧
    (select_processing_location envGoodCritical 2 "hello" none none none).1 =
      ProcessingLocation.SERVER :=
  ⟨by decide,
   C5_theorem envGoodCritical 2 "hello" none none none rfl (by decide) (Or.inr (by decide))⟩

/-- Claim C6 (confirmed): the pattern groups are evaluated in the fixed
order `COMPLEX`, `MODERATE`, `SIMPLE` and the first group containing a
matching pattern wins, so any text matching a `COMPLEX` pattern is
`COMPLEX` regardless of other matches; "explain the weather" is `COMPLEX`;
the empty string and any text matching no group default to `MODERATE`; the
result is never `UNKNOWN`. -/
theorem C6_theorem :
    (∀ s : String, groupMatches .COMPLEX s = true →
      estimate_command_complexity s = .COMPLEX) ∧
    (∀ s : String, groupMatches .COMPLEX s = false → groupMatches .MODERATE s = true →
      estimate_command_complexity s = .MODERATE) ∧
    (∀ s : String, groupMatches .COMPLEX s = false → groupMatches .MODERATE s = false →
      groupMatches .SIMPLE s = true → estimate_command_complexity s = .SIMPLE) ∧
    estimate_command_complexity "explain the weather" = .COMPLEX ∧
    estimate_command_complexity "" = .MODERATE ∧
    (∀ s : String, groupMatches .COMPLEX s = false → groupMatches .MODERATE s = false →
      groupMatches .SIMPLE s = false → estimate_command_complexity s = .MODERATE) ∧
    (∀ s : String, estimate_command_complexity s ≠ .UNKNOWN) := by
  refine ⟨?_, ?_, ?_, by decide, by decide, ?_, ?_⟩
  · intro s h
    have h1 : (COMMAND_COMPLEXITY_PATTERNS CommandComplexity.COMPLEX).any
        (fun p => regexSearch p (s.toList.map Char.toLower)) = true := h
    simp only [estimate_command_complexity, checkGroups]
    rw [h1]
    simp
  · intro s h h2
    have h1 : (COMMAND_COMPLEXITY_PATTERNS CommandComplexity.COMPLEX).any
        (fun p => regexSearch p (s.toList.map Char.toLower)) = false := h
    have h3 : (COMMAND_COMPLEXITY_PATTERNS CommandComplexity.MODERATE).any
        (fun p => regexSearch p (s.toList.map Char.toLower)) = true := h2
    simp only [estimate_command_complexity, checkGroups]
    rw [h1, h3]
    simp
  · intro s h h2 h4
    have h1 : (COMMAND_COMPLEXITY_PATTERNS CommandComplexity.COMPLEX).any
        (fun p => regexSearch p (s.toList.map Char.toLower)) = false := h
    have h3 : (COMMAND_COMPLEXITY_PATTERNS CommandComplexity.MODERATE).any
        (fun p => regexSearch p (s.toList.map Char.toLower)) = false := h2
    have h5 : (COMMAND_COMPLEXITY_PATTERNS CommandComplexity.SIMPLE).any
        (fun p => regexSearch p (s.toList.map Char.toLower)) = true := h4
    simp only [estimate_command_complexity, checkGroups]
    rw [h1, h3, h5]
    simp
  · intro s h h2 h4
    have h1 : (COMMAND_COMPLEXITY_PATTERNS CommandComplexity.COMPLEX).any
        (fun p => regexSearch p (s.toList.map Char.toLower)) = false := h
    have h3 : (COMMAND_COMPLEXITY_PATTERNS CommandComplexity.MODERATE).any
        (fun p => regexSearch p (s.toList.map Char.toLower)) = false := h2
    have h5 : (COMMAND_COMPLEXITY_PATTERNS CommandComplexity.SIMPLE).any
        (fun p => regexSearch p (s.toList.map Char.toLower)) = false := h4
    simp only [estimate_command_complexity, checkGroups]
    rw [h1, h3, h5]
    simp
  · intro s
    simp only [estimate_command_complexity, checkGroups]
    split_ifs <;> decide

/-- Claim C6, witness: "what time is it" matches the `SIMPLE` anchored
pattern but also the `COMPLEX` contextual-reference pattern "it", and the
`COMPLEX` group is checked first; "zzz" matches no group and defaults. -/
theorem C6_witness :
    estimate_command_complexity "what time is it" = CommandComplexity.COMPLEX ∧
    estimate_command_complexity "zzz" = CommandComplexity.MODERATE := by
  exact ⟨C6_theorem.1 "what time is it" (by decide),
         C6_theorem.2.2.2.2.2.1 "zzz" (by decide) (by decide) (by decide)⟩

/-- Claim C7 (confirmed): on any error-free reading the device classifier
returns exactly one of `CRITICAL`, `CONSTRAINED`, `OPTIMAL`, `ADEQUATE`,
and the branch conditions take precedence in that order: the critical
condition always wins, the constrained condition wins when the critical one
fails, the optimal condition when both fail. -/
theorem C7_theorem (r : ResourceReading) (he : r.hasError = false) :
    (classify_device_resource_state r = .CRITICAL ∨
     classify_device_resource_state r = .CONSTRAINED ∨
     classify_device_resource_state r = .OPTIMAL ∨
     classify_device_resource_state r = .ADEQUATE) ∧
    (criticalCond r = true → classify_device_resource_state r = .CRITICAL) ∧
    (criticalCond r = false → constrainedCond r = true →
      classify_device_resource_state r = .CONSTRAINED) ∧
    (criticalCond r = false → constrainedCond r = false → optimalCond r = true →
      classify_device_resource_state r = .OPTIMAL) := by
  refine ⟨?_, ?_, ?_, ?_⟩
  · unfold classify_device_resource_state
    rw [he]
    split_ifs <;> simp_all
  · intro hc
    simp [classify_device_resource_state, he, hc]
  · intro hc hk
    simp [classify_device_resource_state, he, hc, hk]
  · intro hc hk ho
    simp [classify_device_resource_state, he, hc, hk, ho]

/-- Claim C7, witness at the spec's example: battery 10%, 100 MB available,
CPU 90% — the critical and constrained conditions both hold and the result
is `CRITICAL`. -/
theorem C7_witness :
    constrainedCond readingExample = true ∧
    classify_device_resource_state readingExample = DeviceResourceState.CRITICAL :=
  ⟨by decide, (C7_theorem readingExample rfl).2.1 (by decide)⟩

/-- Claim C8, counterexample: an error-free reading with every metric key
absent classifies as `ADEQUATE` (the `.get` defaults 50/50/2000/50 apply),
not `UNKNOWN` — so "metric fields absent from the reading" does not yield
`Unknown` as the claim states. -/
theorem C8_counterexample :
    classify_device_resource_state readingDefaults = DeviceResourceState.ADEQUATE ∧
    classify_device_resource_state readingDefaults ≠ DeviceResourceState.UNKNOWN := by
  constructor <;> decide

/-- Claim C8, amended: the device classifier returns `UNKNOWN` exactly when
the reading carries the adapter's error marker (absent metric fields are
replaced by defaults instead); and with errored telemetry the routing
policy still totally produces a decision, treating the `UNKNOWN` state like
any other value — the device signal is `UNKNOWN` and the selection returns
`LOCAL` or `SERVER`. -/
theorem C8_theorem :
    (∀ r : ResourceReading, r.hasError = true →
      classify_device_resource_state r = .UNKNOWN) ∧
    (∀ env : ServerEnv, env.resource_state.hasError = true →
      ∀ (elapsed : ℚ) (command_text : String) (context : Option ConversationContext),
        (routedSignals env none).2 = DeviceResourceState.UNKNOWN ∧
        ((select_processing_location env elapsed command_text context none none).1 =
            ProcessingLocation.LOCAL ∨
         (select_processing_location env elapsed command_text context none none).1 =
            ProcessingLocation.SERVER)) := by
  constructor
  · intro r h
    simp [classify_device_resource_state, h]
  · intro env he elapsed command_text context
    refine ⟨?_, ?_⟩
    · simp [routedSignals, classify_device_resource_state, he]
    · exact selectAuto_local_or_server env elapsed command_text none

/-- Claim C8, witness: an errored reading classifies `UNKNOWN` and the
policy still decides. -/
theorem C8_witness :
    classify_device_resource_state readingErrored = DeviceResourceState.UNKNOWN ∧
    ((select_processing_location envErrored 2 "hello" none none none).1 =
        ProcessingLocation.LOCAL ∨
     (select_processing_location envErrored 2 "hello" none none none).1 =
        ProcessingLocation.SERVER) :=
  ⟨C8_theorem.1 readingErrored rfl, (C8_theorem.2 envErrored rfl 2 "hello" none).2⟩

/-- Claim C9 (confirmed): on an absent (or falsy) context the tracker makes
a fresh context whose transition list is exactly the one new
`{timestamp, from, to}` entry; on an existing context it appends the new
entry at the end of the existing list (and initializes the list when the
key is absent), never touching earlier entries; the stored venue strings
are the enum's canonical values both for enum-member arguments and for the
venues' raw string values. -/
theorem C9_theorem :
    (∀ (now elapsed : ℚ) (f t : LocationArg),
      (transition_processing_context now elapsed f t none).1 =
        ⟨[], some [⟨now, f.normalize, t.normalize⟩]⟩) ∧
    (∀ (now elapsed : ℚ) (f t : LocationArg) (ctx : ConversationContext)
        (ts : List TransitionEvent), ctx.transitions = some ts →
      (transition_processing_context now elapsed f t (some ctx)).1.transitions =
        some (ts ++ [⟨now, f.normalize, t.normalize⟩]) ∧
      (transition_processing_context now elapsed f t (some ctx)).1.history = ctx.history) ∧
    (∀ (now elapsed : ℚ) (f t : LocationArg) (ctx : ConversationContext),
      ctx.transitions = none →
      (transition_processing_context now elapsed f t (some ctx)).1.transitions =
        some [⟨now, f.normalize, t.normalize⟩]) ∧
    (∀ l : ProcessingLocation,
      LocationArg.normalize (.loc l) = l.value ∧
      LocationArg.normalize (.str l.value) = l.value) := by
  refine ⟨?_, ?_, ?_, ?_⟩
  · intro now elapsed f t
    simp [transition_processing_context]
  · intro now elapsed f t ctx ts h
    constructor <;> simp [transition_processing_context, h]
  · intro now elapsed f t ctx h
    simp [transition_processing_context, h]
  · intro l
    exact ⟨rfl, rfl⟩

/-- Claim C9, witness: a first call on an absent context stores one entry
with canonical strings; a second call appends at the end in order. -/
theorem C9_witness :
    (transition_processing_context 5 1 (.loc .LOCAL) (.str "server") none).1 =
      ⟨[], some [⟨5, "local", "server"⟩]⟩ ∧
    (transition_processing_context 7 1 (.loc .SERVER) (.loc .LOCAL)
        (some ⟨[], some [⟨5, "local", "server"⟩]⟩)).1.transitions =
      some [⟨5, "local", "server"⟩, ⟨7, "server", "local"⟩] := by
  refine ⟨C9_theorem.1 5 1 (.loc .LOCAL) (.str "server"), ?_⟩
  have h := (C9_theorem.2.1 7 1 (.loc .SERVER) (.loc .LOCAL)
    ⟨[], some [⟨5, "local", "server"⟩]⟩ [⟨5, "local", "server"⟩] rfl).1
  simpa using h

/-- Claim C10 (confirmed): without a parsable forced venue the returned
venue is `LOCAL` or `SERVER` — `HYBRID` (like `AUTOMATIC`) is unreachable
through automatic selection. -/
theorem C10_theorem (env : ServerEnv) (elapsed : ℚ) (command_text : String)
    (context : Option ConversationContext) (forced_location : Option String)
    (client_metrics : Option ClientMetrics)
    (hf : forced_location.bind ProcessingLocation.fromString = none) :
    (select_processing_location env elapsed command_text context forced_location
        client_metrics).1 = ProcessingLocation.LOCAL ∨
    (select_processing_location env elapsed command_text context forced_location
        client_metrics).1 = ProcessingLocation.SERVER := by
  rw [select_eq_auto env elapsed command_text context forced_location client_metrics hf]
  exact selectAuto_local_or_server env elapsed command_text client_metrics

/-- Claim C10, witness at a concrete non-forced call (invalid forced
string, errored telemetry). -/
theorem C10_witness :
    (select_processing_location envErrored 2 "calculate this" none (some "bogus") none).1 =
      ProcessingLocation.LOCAL ∨
    (select_processing_location envErrored 2 "calculate this" none (some "bogus") none).1 =
      ProcessingLocation.SERVER :=
  C10_theorem envErrored 2 "calculate this" none (some "bogus") none rfl

end HybridRouter
